import Mathlib

/-!
Verification of the Squeal destructor-constant bridge.

The repository consists of two header files, `src/Squeal/Squeal.h` and
`src/Squeal-iOS/Squeal.h`.  Each declares two exported version symbols,
a function-pointer typedef

  typedef void (*squeal_destructor_type)(void*);

and two constants

  const squeal_destructor_type SQUEAL_STATIC = ((squeal_destructor_type)0);
  const squeal_destructor_type SQUEAL_TRANSIENT = ((squeal_destructor_type)-1);

We embed the headers shallowly.  A function-pointer value on a platform
with pointer width `w` bits is modelled by its bit pattern, an unsigned
`w`-bit number (a `Nat` below `2 ^ w`).  Casting a C integer `n` to the
pointer type yields the two's-complement bit pattern `n mod 2 ^ w`.
-/

namespace Squeal

/-- Semantics of the C cast `((squeal_destructor_type)n)` on a platform with
pointer width `w` bits: the integer `n` reduced to its unsigned `w`-bit
two's-complement bit pattern. -/
def squealDestructorCast (w : Nat) (n : Int) : Nat :=
  (n % (2 ^ w : Int)).toNat

/-- Embedding of `const squeal_destructor_type SQUEAL_STATIC =
((squeal_destructor_type)0);` as a function of the pointer width. -/
def SQUEAL_STATIC (w : Nat) : Nat :=
  squealDestructorCast w 0

/-- Embedding of `const squeal_destructor_type SQUEAL_TRANSIENT =
((squeal_destructor_type)-1);` as a function of the pointer width. -/
def SQUEAL_TRANSIENT (w : Nat) : Nat :=
  squealDestructorCast w (-1)

/-- The null pointer of type `squeal_destructor_type`: integer `0` cast to
the pointer type (the value of `NULL` for this type). -/
def nullDestructor (w : Nat) : Nat :=
  squealDestructorCast w 0

/-- C pointer-equality test of a destructor value against the null pointer
of type `squeal_destructor_type`. -/
def destructorIsNull (w : Nat) (p : Nat) : Bool :=
  p == nullDestructor w

/-- Initializer expressions occurring in the headers: integer literals,
casts to `squeal_destructor_type`, and (for the safety claim) invocation
through a destructor pointer, which the headers never perform. -/
inductive CExpr where
  | intLit : Int → CExpr
  | castToDestructor : CExpr → CExpr
  | callThrough : CExpr → CExpr → CExpr
deriving DecidableEq

/-- Top-level declarations occurring in the headers. -/
inductive CDecl where
  | importFoundation : CDecl
  | externDouble : String → CDecl
  | externUCharArray : String → CDecl
  | typedefDestructor : String → CDecl
  | constDestructor : String → CExpr → CDecl
deriving DecidableEq

/-- Transcription of `src/Squeal/Squeal.h`, declaration by declaration. -/
def squealHeader : List CDecl :=
  [ .importFoundation,
    .externDouble "SquealVersionNumber",
    .externUCharArray "SquealVersionString",
    .typedefDestructor "squeal_destructor_type",
    .constDestructor "SQUEAL_STATIC" (.castToDestructor (.intLit 0)),
    .constDestructor "SQUEAL_TRANSIENT" (.castToDestructor (.intLit (-1))) ]

/-- Transcription of `src/Squeal-iOS/Squeal.h`, declaration by declaration. -/
def squealIOSHeader : List CDecl :=
  [ .importFoundation,
    .externDouble "Squeal_iOSVersionNumber",
    .externUCharArray "Squeal_iOSVersionString",
    .typedefDestructor "squeal_destructor_type",
    .constDestructor "SQUEAL_STATIC" (.castToDestructor (.intLit 0)),
    .constDestructor "SQUEAL_TRANSIENT" (.castToDestructor (.intLit (-1))) ]

/-- The initializer of the constant named `name`, if the header defines it. -/
def lookupConstInit (ds : List CDecl) (name : String) : Option CExpr :=
  ds.findSome? fun d =>
    match d with
    | .constDestructor n e => if n = name then some e else none
    | _ => none

/-- Evaluate an initializer of pointer type `squeal_destructor_type` on a
platform with pointer width `w`: only a cast of an integer literal to the
destructor type denotes a value; anything else is not a constant
initializer. -/
def evalDestructorInit (w : Nat) : CExpr → Option Nat
  | .castToDestructor (.intLit n) => some (squealDestructorCast w n)
  | _ => none

/-- The bit pattern a header gives to the constant `name` on a platform with
pointer width `w`, if defined. -/
def headerConstValue (ds : List CDecl) (name : String) (w : Nat) : Option Nat :=
  (lookupConstInit ds name).bind (evalDestructorInit w)

/-- Does the header contain `typedef void (*name)(void*);`? -/
def hasDestructorTypedef (ds : List CDecl) (name : String) : Bool :=
  ds.any fun d =>
    match d with
    | .typedefDestructor n => n == name
    | _ => false

/-- Does an expression invoke a function pointer? -/
def exprHasCall : CExpr → Bool
  | .intLit _ => false
  | .castToDestructor e => exprHasCall e
  | .callThrough _ _ => true

/-- Does a declaration contain an invocation through a function pointer? -/
def declHasCall : CDecl → Bool
  | .constDestructor _ e => exprHasCall e
  | _ => false

/-- The state of a process that has loaded the bridge: the two sentinel
constants defined by the header, and the two exported build-identification
symbols (the bit pattern of the `double` version number and the bytes of
the version string), whose values come from the build system. -/
structure ProcessState where
  squealStaticVal : Nat
  squealTransientVal : Nat
  versionNumberBits : Nat
  versionStringBytes : List Nat
deriving DecidableEq

/-- Loading the bridge on a platform with pointer width `w`: the two
constants are initialized from their declared initializers; the version
symbols take whatever values the build gave them. -/
def loadProcess (w : Nat) (vnum : Nat) (vstr : List Nat) : ProcessState :=
  ⟨SQUEAL_STATIC w, SQUEAL_TRANSIENT w, vnum, vstr⟩

/-- The operations the bridge exposes: reading one of the two constants. -/
inductive ReadOp where
  | readStatic : ReadOp
  | readTransient : ReadOp
deriving DecidableEq

/-- Reading a sentinel constant: returns its value and the resulting
process state. -/
def readSentinel : ReadOp → ProcessState → Nat × ProcessState
  | .readStatic, s => (s.squealStaticVal, s)
  | .readTransient, s => (s.squealTransientVal, s)

/-- Run a sequence of reads (an arbitrary interleaving of the reads issued
by any number of threads), collecting each read's result. -/
def runReads : List ReadOp → ProcessState → List Nat × ProcessState
  | [], s => ([], s)
  | op :: ops, s =>
    let r := readSentinel op s
    let rest := runReads ops r.2
    (r.1 :: rest.1, rest.2)

/-- The value each read operation is specified to return on a platform with
pointer width `w`. -/
def sentinelValue (w : Nat) : ReadOp → Nat
  | .readStatic => SQUEAL_STATIC w
  | .readTransient => SQUEAL_TRANSIENT w

lemma squealStatic_val (w : Nat) : SQUEAL_STATIC w = 0 := by
  unfold SQUEAL_STATIC squealDestructorCast
  simp

lemma squealTransient_val (w : Nat) : SQUEAL_TRANSIENT w = 2 ^ w - 1 := by
  unfold SQUEAL_TRANSIENT squealDestructorCast
  have hpow : ((2 ^ w : Nat) : Int) = (2 : Int) ^ w := by push_cast; ring
  have hpos : (0 : Int) < 2 ^ w := by positivity
  have hmod : (-1 : Int) % 2 ^ w = 2 ^ w - 1 := by
    have h1 : (-1 : Int) = (2 ^ w - 1) + 2 ^ w * (-1) := by ring
    rw [h1, Int.add_mul_emod_self_left]
    exact Int.emod_eq_of_lt (by linarith) (by linarith)
  rw [hmod, ← hpow]
  have h1 : 0 < 2 ^ w := by positivity
  omega

lemma readSentinel_state (op : ReadOp) (s : ProcessState) :
    (readSentinel op s).2 = s := by
  cases op <;> rfl

lemma readSentinel_val (op : ReadOp) (w vnum : Nat) (vstr : List Nat) :
    (readSentinel op (loadProcess w vnum vstr)).1 = sentinelValue w op := by
  cases op <;> rfl

lemma runReads_eq (ops : List ReadOp) (s : ProcessState) :
    runReads ops s = (ops.map fun op => (readSentinel op s).1, s) := by
  induction ops with
  | nil => rfl
  | cons op ops ih =>
    simp only [runReads, readSentinel_state, ih, List.map]

/-- C1: the STATIC sentinel has bit pattern zero — the integer `0` cast to
`squeal_destructor_type` — on every platform pointer width. -/
theorem squeal_static_bit_pattern_zero (w : Nat) :
    SQUEAL_STATIC w = squealDestructorCast w 0 ∧ SQUEAL_STATIC w = 0 :=
  ⟨rfl, squealStatic_val w⟩

/-- C2: the TRANSIENT sentinel — the integer `-1` cast to
`squeal_destructor_type` — has bit pattern all-ones at the platform's
pointer width, i.e. its unsigned reinterpretation equals `2 ^ w - 1`. -/
theorem squeal_transient_bit_pattern_all_ones (w : Nat) :
    SQUEAL_TRANSIENT w = squealDestructorCast w (-1) ∧
      SQUEAL_TRANSIENT w = 2 ^ w - 1 :=
  ⟨rfl, squealTransient_val w⟩

/-- C3: the two sentinel constants are distinct on every platform pointer
width (every positive pointer width). -/
theorem squeal_sentinels_distinct (w : Nat) (h : 0 < w) :
    SQUEAL_STATIC w ≠ SQUEAL_TRANSIENT w := by
  rw [squealStatic_val, squealTransient_val]
  have h2 : 2 ≤ 2 ^ w := by
    calc 2 = 2 ^ 1 := by norm_num
    _ ≤ 2 ^ w := Nat.pow_le_pow_right (by norm_num) h
  omega

/-- Witness for C3 at the 64-bit pointer width. -/
theorem squeal_sentinels_distinct_witness :
    0 < 64 ∧ SQUEAL_STATIC 64 ≠ SQUEAL_TRANSIENT 64 :=
  ⟨by decide, squeal_sentinels_distinct 64 (by decide)⟩

/-- C4: the constants are process-wide and immutable: no sequence of bridge
operations changes the loaded process state, and any two reads of the same
constant, at any two points of the process's execution, yield the same
value. -/
theorem squeal_constants_immutable (w vnum : Nat) (vstr : List Nat)
    (ops ops' : List ReadOp) (op : ReadOp) :
    (runReads ops (loadProcess w vnum vstr)).2 = loadProcess w vnum vstr ∧
      (readSentinel op (runReads ops (loadProcess w vnum vstr)).2).1 =
        (readSentinel op (runReads ops' (loadProcess w vnum vstr)).2).1 := by
  constructor
  · rw [runReads_eq]
  · rw [runReads_eq, runReads_eq]

/-- C5: the two headers are equivalent with respect to the sentinel
contract: both declare the destructor typedef `squeal_destructor_type`,
and for every constant name and every pointer width they define the same
value — in particular the same STATIC and TRANSIENT bit patterns. -/
theorem squeal_headers_equivalent :
    hasDestructorTypedef squealHeader "squeal_destructor_type" = true ∧
      hasDestructorTypedef squealIOSHeader "squeal_destructor_type" = true ∧
      (∀ (name : String) (w : Nat),
        headerConstValue squealHeader name w =
          headerConstValue squealIOSHeader name w) ∧
      (∀ w : Nat,
        headerConstValue squealHeader "SQUEAL_STATIC" w =
            some (SQUEAL_STATIC w) ∧
          headerConstValue squealHeader "SQUEAL_TRANSIENT" w =
            some (SQUEAL_TRANSIENT w)) := by
  refine ⟨by decide, by decide, ?_, ?_⟩
  · intro name w
    rfl
  · intro w
    exact ⟨rfl, rfl⟩

/-- C6: reading either sentinel constant cannot fail and has no side
effects: the read is a total operation, leaves the process state exactly
as it was, and returns the constant's value. -/
theorem squeal_read_no_failure_no_side_effect (w vnum : Nat)
    (vstr : List Nat) (op : ReadOp) (s : ProcessState) :
    (readSentinel op s).2 = s ∧
      (readSentinel op (loadProcess w vnum vstr)).1 = sentinelValue w op :=
  ⟨readSentinel_state op s, readSentinel_val op w vnum vstr⟩

/-- C7: no declaration in either supplied header invokes a function
pointer: the sentinels are bound to cast integer literals, never called
through, so the supplied material never invokes SQUEAL_STATIC or
SQUEAL_TRANSIENT as real function pointers. -/
theorem squeal_sentinels_never_invoked :
    (squealHeader ++ squealIOSHeader).all (fun d => !declHasCall d) = true := by
  decide

/-- C8: the bridge is stateless and immutable, so reads from any number of
concurrent threads need no synchronization: every interleaving of reads
returns, for each read, the fixed constant value determined by the
operation alone, and leaves the process state unchanged. -/
theorem squeal_concurrent_reads_safe (w vnum : Nat) (vstr : List Nat)
    (ops : List ReadOp) :
    runReads ops (loadProcess w vnum vstr) =
      (ops.map (sentinelValue w), loadProcess w vnum vstr) := by
  rw [runReads_eq]
  refine congrArg (fun l => (l, loadProcess w vnum vstr)) ?_
  exact List.map_congr_left fun op _ => readSentinel_val op w vnum vstr

/-- C9: the build-identification symbols have no effect on the sentinel
values: whatever values the version number and version string take, reads
of SQUEAL_STATIC and SQUEAL_TRANSIENT return the same results. -/
theorem squeal_version_symbols_no_effect (w vnum vnum' : Nat)
    (vstr vstr' : List Nat) (op : ReadOp) :
    (readSentinel op (loadProcess w vnum vstr)).1 =
      (readSentinel op (loadProcess w vnum' vstr')).1 := by
  cases op <;> rfl

/-- C10: SQUEAL_STATIC is exactly the null pointer of type
`squeal_destructor_type`: comparing it against the null destructor pointer
yields true on every pointer width. -/
theorem squeal_static_is_null_pointer (w : Nat) :
    SQUEAL_STATIC w = nullDestructor w ∧
      destructorIsNull w (SQUEAL_STATIC w) = true := by
  refine ⟨rfl, ?_⟩
  unfold destructorIsNull
  exact beq_iff_eq.mpr rfl

end Squeal
